import Mathlib

/-!
Verification of the GPU resource-management core of `wgpu_custom_web`
(`src/lib/crates/custom-engine-core`), as a shallow embedding in Lean.

Conventions of the embedding:
* Rust `usize`/`u32`/`u64` values are modelled as `Nat`.  The one place the
  code sums two `u64` values that a caller can drive past `u64::MAX`
  (`update_buffer_data`'s `(size_of_val(data) as u64) + offset`, with
  `offset : u64` caller-supplied) is modelled with the wrapping sum
  `% 2 ^ 64`, release-mode Rust semantics.
* `f64` scale factors are modelled as exact rationals `ℚ`; the `as u32`
  float-to-integer cast is modelled by `f64ToU32` (truncation toward zero,
  saturating at `0` and `2^32 - 1`, exactly Rust's saturating cast semantics).
* `HashMap<usize, V>` fields of `Context` are modelled as `Nat → Option V`,
  `HashSet<usize>` as `Nat → Bool`, `HashMap<String, V>` as
  `String → Option V`.
* Fallible Rust functions returning `Result<T, CoreError>` become
  `Except CoreError T`.  A Rust slice-indexing panic is modelled by the
  distinguished error `CoreError.PanicIndexOutOfBounds`.
* GPU work recorded on a command encoder / submitted to the queue is modelled
  as a list of `Cmd` values; a function that submits returns `.ok cmds`,
  and an `.error` result means the encoder was never submitted (in
  `RenderPass::render` the `queue.submit` call is only reached after every
  stage processed without error).
* The randomness of `rand::thread_rng` in `generate_unique_id` is modelled by
  an explicit stream `rng : Nat → Nat` of sampled values, and the unbounded
  `while` loop by an explicit fuel parameter (`none` = the loop has not
  terminated within `fuel` samples).
-/

namespace CustomEngine

/-- Error enum of `custom-engine-core/src/errors.rs` (`CoreError`), restricted
to the variants reachable from the functions embedded here.  The variants
`EmptyEntities`, `EmptyInstances`, `NotRenderPipeline`, `NotComputePipeline`
are referenced by `render_pass.rs` (they carry the stage index resp. the pass
label).  `PanicIndexOutOfBounds` is not a source variant: it models the Rust
panic on out-of-bounds slice indexing (`materials[mesh.material]`). -/
inductive CoreError where
  | EmptyTextureView (label : String)
  | EmptyRenderPassColorAttachemnts (label : String)
  | ContextFieldIsNotExist (kind : String) (id : Nat)
  | ImageBufferCreate
  | UniformBufferNotFound (name : String)
  | StorageNotFound (name : String)
  | SurfaceNotConfigured
  | NotInitView
  | WrongBufferSize
  | EmptyEntities (index : Nat)
  | EmptyInstances (index : Nat)
  | NotRenderPipeline (label : String)
  | NotComputePipeline (label : String)
  | PanicIndexOutOfBounds
  deriving Repr, DecidableEq

/-- Buffer model (`buffer.rs`): id, binding slot and the fixed byte capacity
(`wgpu::Buffer::size()`, fixed at creation). -/
structure Buffer where
  id : Nat
  binding : Nat
  size : Nat
  deriving Repr, DecidableEq

/-- Bind group model (`bind_group.rs`): id and binding-group index. -/
structure BindGroup where
  id : Nat
  binding : Nat
  deriving Repr, DecidableEq

/-- Bind group layout model (`bind_group/layout.rs`). -/
structure BindGroupLayout where
  id : Nat
  deriving Repr, DecidableEq

/-- Pipeline layout model (`pipeline/layout.rs`). -/
structure PipelineLayout where
  id : Nat
  deriving Repr, DecidableEq

/-- Inner pipeline variant (`pipeline.rs`, `enum InnerPipeline`); the wrapped
`wgpu` pipeline object is modelled as an opaque handle. -/
inductive InnerPipeline where
  | Render (handle : Nat)
  | Compute (handle : Nat)
  deriving Repr, DecidableEq

/-- Pipeline model (`pipeline.rs`, `struct Pipeline`, which derefs to its
`InnerPipeline`). -/
structure Pipeline where
  id : Nat
  inner : InnerPipeline
  deriving Repr, DecidableEq

/-- Model of `InnerPipeline::render`: `Some` exactly on the render variant. -/
def Pipeline.render (p : Pipeline) : Option Nat :=
  match p.inner with
  | .Render r_p => some r_p
  | .Compute _ => none

/-- Model of `InnerPipeline::compute`: `Some` exactly on the compute variant. -/
def Pipeline.compute (p : Pipeline) : Option Nat :=
  match p.inner with
  | .Compute c_p => some c_p
  | .Render _ => none

/-- Shader model (`shader.rs`), reduced to its arena id. -/
structure Shader where
  id : Nat
  deriving Repr, DecidableEq

/-- Render texture model (`texture/render.rs`), reduced to its arena id. -/
structure RenderTexture where
  id : Nat
  deriving Repr, DecidableEq

/-- Depth texture model (`texture/depth.rs`), reduced to its arena id. -/
structure DepthTexture where
  id : Nat
  deriving Repr, DecidableEq

/-- Mesh model (`model/mesh.rs`): element count, material index and the two
per-mesh buffers. -/
structure Mesh where
  id : Nat
  name : String
  num_elements : Nat
  material : Nat
  vertex_buffer : Buffer
  index_buffer : Buffer
  deriving Repr, DecidableEq

/-- Material model (`model/material.rs`): its bind group (textures omitted —
they never appear in the embedded control flow). -/
structure Material where
  id : Nat
  name : String
  bind_group : BindGroup
  deriving Repr, DecidableEq

/-- Model model (`model.rs`): mesh list and material list. -/
structure Model where
  id : Nat
  meshes : List Mesh
  materials : List Material
  deriving Repr, DecidableEq

/-- Uniform group model (`uniform.rs`, `struct Uniforms`): the name → buffer
lookup used by `update_uniform`. -/
structure Uniforms where
  id : Nat
  buffers : String → Option Buffer

/-- Model of `Uniforms::get_buffer`. -/
def Uniforms.get_buffer (u : Uniforms) (name : String) : Option Buffer :=
  u.buffers name

/-- Storage group model (`storage.rs`, `struct Storages`): the name → buffer
lookup used by `update_storage`. -/
structure Storages where
  id : Nat
  buffers : String → Option Buffer

/-- Model of `Storages::get_buffer`. -/
def Storages.get_buffer (s : Storages) (name : String) : Option Buffer :=
  s.buffers name

/-- The resource arena (`context.rs`, `struct Context`): one map per resource
kind plus the global id set `ids`. -/
structure Context where
  buffers : Nat → Option Buffer
  bind_groups : Nat → Option BindGroup
  bind_group_layouts : Nat → Option BindGroupLayout
  pipelines : Nat → Option Pipeline
  pipeline_layouts : Nat → Option PipelineLayout
  shaders : Nat → Option Shader
  render_textures : Nat → Option RenderTexture
  depth_textures : Nat → Option DepthTexture
  process_textures : Nat → Option RenderTexture
  models : Nat → Option Model
  uniforms : Nat → Option Uniforms
  storages : Nat → Option Storages
  ids : Nat → Bool

/-- Model of `Context::new()` / `Default`: every map empty. -/
def Context.empty : Context where
  buffers := fun _ => none
  bind_groups := fun _ => none
  bind_group_layouts := fun _ => none
  pipelines := fun _ => none
  pipeline_layouts := fun _ => none
  shaders := fun _ => none
  render_textures := fun _ => none
  depth_textures := fun _ => none
  process_textures := fun _ => none
  models := fun _ => none
  uniforms := fun _ => none
  storages := fun _ => none
  ids := fun _ => false

/-- Model of the loop body chain of `Context::generate_unique_id`: sample
`rng k`; if the sample is in `ids`, resample, else return it.  `fuel` bounds
the number of samples (the Rust loop is unbounded). -/
def genLoop (ids : Nat → Bool) (rng : Nat → Nat) : Nat → Nat → Option Nat
  | 0, _ => none
  | fuel + 1, k =>
    let val := rng k
    if ids val then genLoop ids rng fuel (k + 1) else some val

/-- Model of `Context::generate_unique_id` (`context.rs` lines 44-53). -/
def Context.generate_unique_id (c : Context) (rng : Nat → Nat) (fuel : Nat) :
    Option Nat :=
  genLoop c.ids rng fuel 0

/-- Model of `Context::add_buffer`: insert only if `b.id` is absent from the
`buffers` map; on insert also record the id in the global id set. -/
def Context.add_buffer (c : Context) (b : Buffer) : Context :=
  if (c.buffers b.id).isSome then c
  else
    { c with
      ids := Function.update c.ids b.id true
      buffers := Function.update c.buffers b.id (some b) }

/-- Model of `Context::replace_buffer`: only if `id` is present, re-key the
new value to `id` and overwrite; otherwise a logged no-op.  (The Rust function
returns `Ok(())` on every path, so plain state is returned.) -/
def Context.replace_buffer (c : Context) (id : Nat) (b : Buffer) : Context :=
  if (c.buffers id).isSome then
    { c with buffers := Function.update c.buffers id (some { b with id := id }) }
  else c

/-- Model of `Context::get_buffer`. -/
def Context.get_buffer (c : Context) (id : Nat) : Except CoreError Buffer :=
  match c.buffers id with
  | some b => .ok b
  | none => .error (.ContextFieldIsNotExist "Buffer" id)

/-- Model of `Context::take_buffer`: remove and return; the global id set is
not touched. -/
def Context.take_buffer (c : Context) (id : Nat) :
    Except CoreError Buffer × Context :=
  match c.buffers id with
  | some b => (.ok b, { c with buffers := Function.update c.buffers id none })
  | none => (.error (.ContextFieldIsNotExist "Buffer" id), c)

/-- Model of `Context::add_pipeline` (same shape as `add_buffer`, checking the
`pipelines` map only). -/
def Context.add_pipeline (c : Context) (p : Pipeline) : Context :=
  if (c.pipelines p.id).isSome then c
  else
    { c with
      ids := Function.update c.ids p.id true
      pipelines := Function.update c.pipelines p.id (some p) }

/-- Model of `Context::replace_pipeline`. -/
def Context.replace_pipeline (c : Context) (id : Nat) (p : Pipeline) : Context :=
  if (c.pipelines id).isSome then
    { c with pipelines := Function.update c.pipelines id (some { p with id := id }) }
  else c

/-- Model of `Context::get_pipeline`. -/
def Context.get_pipeline (c : Context) (id : Nat) : Except CoreError Pipeline :=
  match c.pipelines id with
  | some p => .ok p
  | none => .error (.ContextFieldIsNotExist "Pipeline" id)

/-- Model of `Context::take_pipeline`. -/
def Context.take_pipeline (c : Context) (id : Nat) :
    Except CoreError Pipeline × Context :=
  match c.pipelines id with
  | some p => (.ok p, { c with pipelines := Function.update c.pipelines id none })
  | none => (.error (.ContextFieldIsNotExist "Pipeline" id), c)

/-- Model of `Context::get_uniform_ref` (the `Ref` wrapper is an aliasing
pointer to the stored value; the model returns the value itself). -/
def Context.get_uniform_ref (c : Context) (id : Nat) : Except CoreError Uniforms :=
  match c.uniforms id with
  | some u => .ok u
  | none => .error (.ContextFieldIsNotExist "Uniforms" id)

/-- Model of `Context::get_storage_ref`. -/
def Context.get_storage_ref (c : Context) (id : Nat) : Except CoreError Storages :=
  match c.storages id with
  | some s => .ok s
  | none => .error (.ContextFieldIsNotExist "Storages" id)

/-- Model of `Context::get_buffer_ref`. -/
def Context.get_buffer_ref (c : Context) (id : Nat) : Except CoreError Buffer :=
  match c.buffers id with
  | some b => .ok b
  | none => .error (.ContextFieldIsNotExist "Buffer" id)

/-- One arena operation of the add/replace/take family, over the two
representative resource kinds used by the claims (buffers and pipelines; the
remaining ten kinds in `context.rs` are verbatim analogous). -/
inductive Op where
  | addBuffer (b : Buffer)
  | replaceBuffer (id : Nat) (b : Buffer)
  | takeBuffer (id : Nat)
  | addPipeline (p : Pipeline)
  | replacePipeline (id : Nat) (p : Pipeline)
  | takePipeline (id : Nat)

/-- Apply one arena operation (the `take_*` result value is discarded; only
the arena state evolution matters for the history claims). -/
def Context.applyOp (c : Context) : Op → Context
  | .addBuffer b => c.add_buffer b
  | .replaceBuffer id b => c.replace_buffer id b
  | .takeBuffer id => (c.take_buffer id).2
  | .addPipeline p => c.add_pipeline p
  | .replacePipeline id p => c.replace_pipeline id p
  | .takePipeline id => (c.take_pipeline id).2

/-- Apply a sequence of arena operations from left to right. -/
def Context.applyOps (c : Context) : List Op → Context
  | [] => c
  | op :: rest => (c.applyOp op).applyOps rest

/-- Specification-side step, following the claim's words for one id `i` of the
buffer kind: `add` stores only when nothing is stored (insertion is
idempotent-or-ignored), `replace` stores the new value re-keyed to `i` only
when something is stored, `take` removes; operations of the pipeline kind
leave the buffer history untouched. -/
def storedBufferStep (i : Nat) (s : Option Buffer) : Op → Option Buffer
  | .addBuffer b => if b.id = i then (if s.isSome then s else some b) else s
  | .replaceBuffer id b => if id = i then (if s.isSome then some { b with id := i } else s) else s
  | .takeBuffer id => if id = i then none else s
  | _ => s

/-- Specification-side history fold for the buffer kind. -/
def storedBufferAfter (i : Nat) (s : Option Buffer) : List Op → Option Buffer
  | [] => s
  | op :: rest => storedBufferAfter i (storedBufferStep i s op) rest

/-- Specification-side step for the pipeline kind (mirror of
`storedBufferStep`). -/
def storedPipelineStep (i : Nat) (s : Option Pipeline) : Op → Option Pipeline
  | .addPipeline p => if p.id = i then (if s.isSome then s else some p) else s
  | .replacePipeline id p => if id = i then (if s.isSome then some { p with id := i } else s) else s
  | .takePipeline id => if id = i then none else s
  | _ => s

/-- Specification-side history fold for the pipeline kind. -/
def storedPipelineAfter (i : Nat) (s : Option Pipeline) : List Op → Option Pipeline
  | [] => s
  | op :: rest => storedPipelineAfter i (storedPipelineStep i s op) rest

/-- Index format passed to `set_index_buffer`. -/
inductive IndexFormat where
  | Uint16
  | Uint32
  deriving Repr, DecidableEq

/-- Viewport override of a render stage (`render_pass.rs`,
`struct ViewportRect`; `f32` modelled as exact rationals). -/
structure ViewportRect where
  coords : ℚ × ℚ
  size : ℚ × ℚ
  min_depth : ℚ
  max_depth : ℚ
  deriving Repr, DecidableEq

/-- Scissor override of a render stage (`render_pass.rs`,
`struct ScissorsRect`). -/
structure ScissorsRect where
  coords : Nat × Nat
  size : Nat × Nat
  deriving Repr, DecidableEq

/-- `wgpu::Color` (four `f64` channels, modelled as exact rationals). -/
structure Color where
  r : ℚ
  g : ℚ
  b : ℚ
  a : ℚ
  deriving Repr, DecidableEq

/-- One GPU command recorded on the command encoder.  A submission is a list
of these; a failed `render` never submits, so it produces no such list. -/
inductive Cmd where
  | setVertexBuffer (slot : Nat) (buffer : Buffer)
  | setIndexBuffer (buffer : Buffer) (format : IndexFormat)
  | setBindGroup (index : Nat) (bind_group : BindGroup)
  | setPipeline (handle : Nat)
  | setViewport (v : ViewportRect)
  | setScissorRect (s : ScissorsRect)
  | setBlendConstant (c : Color)
  | setStencilReference (r : Nat)
  | drawIndexed (indices : Nat × Nat) (base_vertex : Int) (instances : Nat × Nat)
  | draw (vertices : Nat × Nat) (instances : Nat × Nat)
  | dispatchWorkgroups (x y z : Nat)
  | copyTextureToBuffer (texture : Nat) (buffer : Nat)
  deriving Repr, DecidableEq

/-- Builder for a color attachment (`render_pass/color_attachment.rs`); the
texture view and the load/store ops are opaque handles. -/
structure ColorAttachmentBuilder where
  id : Option Nat
  label : Option String
  view : Option Nat
  ops : Option Nat
  deriving Repr, DecidableEq

/-- A built color attachment. -/
structure ColorAttachment where
  id : Nat
  view : Nat
  ops : Nat
  deriving Repr, DecidableEq

/-- Model of `ColorAttachmentBuilder::build`: fails with `EmptyTextureView`
when no view was set; `ops` defaults to Load/Store. -/
def ColorAttachmentBuilder.build (cab : ColorAttachmentBuilder) :
    Except CoreError ColorAttachment :=
  let id := cab.id.getD 0
  let label := cab.label.getD ("Color attachment: " ++ toString id)
  match cab.view with
  | none => .error (.EmptyTextureView label)
  | some view => .ok { id := id, view := view, ops := cab.ops.getD 0 }

/-- Builder for a depth-stencil attachment
(`render_pass/depth_stencil.rs`). -/
structure DepthStencilAttachmentBuilder where
  id : Option Nat
  label : Option String
  view : Option Nat
  depth_ops : Option Nat
  stencil_ops : Option Nat
  deriving Repr, DecidableEq

/-- A built depth-stencil attachment. -/
structure DepthStencilAttachment where
  id : Nat
  view : Nat
  deriving Repr, DecidableEq

/-- Model of `DepthStencilAttachmentBuilder::build`; in `Stage::process` its
failure is swallowed by `.ok()`, so it can never fail a stage. -/
def DepthStencilAttachmentBuilder.build (d : DepthStencilAttachmentBuilder) :
    Except CoreError DepthStencilAttachment :=
  let id := d.id.getD 0
  let label := d.label.getD ("Depth stencil attachment: " ++ toString id)
  match d.view with
  | none => .error (.EmptyTextureView label)
  | some view => .ok { id := id, view := view }

/-- Compute stage (`render_pass.rs`, `struct ComputeStage`). -/
structure ComputeStage where
  pipeline : Pipeline
  bind_groups : Option (List BindGroup)
  x_dimension : Nat
  y_dimension : Nat
  z_dimension : Nat
  deriving Repr, DecidableEq

/-- Render stage (`render_pass.rs`, `struct RenderStage`); ranges `a..b` are
modelled as pairs `(a, b)`. -/
structure RenderStage where
  pipeline : Pipeline
  vertex_buffer : Option Buffer
  index_buffer : Option Buffer
  bind_groups : Option (List BindGroup)
  model : Option Model
  instances : Option (Nat × Nat)
  base_vertex : Option Int
  entities : Option (Nat × Nat)
  color_attachments : Option ColorAttachmentBuilder
  depth_stencil : Option DepthStencilAttachmentBuilder
  query_set : Option Nat
  viewport : Option ViewportRect
  scissors : Option ScissorsRect
  blend_constant : Option Color
  stencil_reference : Option Nat
  deriving Repr, DecidableEq

/-- Tagged stage variant (`render_pass.rs`, `enum Stage`). -/
inductive Stage where
  | Render (r_s : RenderStage)
  | Compute (c_s : ComputeStage)
  deriving Repr, DecidableEq

/-- Copy-out instruction (`texture.rs`, `CopyTextureParams`): destination
readback buffer and source render texture. -/
structure CopyTextureParams where
  buffer : Buffer
  render_texture : RenderTexture
  deriving Repr, DecidableEq

/-- Commands contributed by an optional stage component: the source records
one `set_*` call per `if let Some(..)` block. -/
def optCmds {α : Type} (o : Option α) (f : α → List Cmd) : List Cmd :=
  match o with
  | some x => f x
  | none => []

/-- Discriminator for draw commands (indexed or not). -/
def Cmd.isDraw : Cmd → Bool
  | .drawIndexed _ _ _ => true
  | .draw _ _ => true
  | _ => false

/-- The fixed-function setup commands recorded by `Stage::process` for a
render stage before any draw, in source order: explicit vertex buffer,
explicit index buffer (`Uint16`), all bind groups, the pipeline, then the
viewport / scissor / blend-constant / stencil-reference overrides. -/
def renderStageSetup (r_s : RenderStage) (rp_handle : Nat) : List Cmd :=
  optCmds r_s.vertex_buffer (fun vb => [Cmd.setVertexBuffer vb.binding vb]) ++
  optCmds r_s.index_buffer (fun ib => [Cmd.setIndexBuffer ib .Uint16]) ++
  optCmds r_s.bind_groups
    (fun b_gs => b_gs.map (fun bg => Cmd.setBindGroup bg.binding bg)) ++
  [Cmd.setPipeline rp_handle] ++
  optCmds r_s.viewport (fun v => [Cmd.setViewport v]) ++
  optCmds r_s.scissors (fun s => [Cmd.setScissorRect s]) ++
  optCmds r_s.blend_constant (fun b_c => [Cmd.setBlendConstant b_c]) ++
  optCmds r_s.stencil_reference (fun s_r => [Cmd.setStencilReference s_r])

/-- The model loop of `Stage::process`: for each mesh bind that mesh's own
vertex buffer, its own index buffer (`Uint32`), its material's bind group,
then one indexed draw over `0..num_elements` with the stage's instance
range.  `materials[mesh.material]` panics in Rust when the index is out of
bounds; the model returns `PanicIndexOutOfBounds` there. -/
def processMeshes (materials : List Material) (instances : Nat × Nat) :
    List Mesh → Except CoreError (List Cmd)
  | [] => .ok []
  | mesh :: rest =>
    match materials.get? mesh.material with
    | none => .error .PanicIndexOutOfBounds
    | some material =>
      match processMeshes materials instances rest with
      | .error e => .error e
      | .ok rest_cmds =>
        .ok ([Cmd.setVertexBuffer mesh.vertex_buffer.binding mesh.vertex_buffer,
              Cmd.setIndexBuffer mesh.index_buffer .Uint32,
              Cmd.setBindGroup material.bind_group.binding material.bind_group,
              Cmd.drawIndexed (0, mesh.num_elements) 0 instances] ++ rest_cmds)

/-- The successful per-mesh command block of the model loop (what one
iteration records when the material index is in bounds). -/
def meshBlock (materials : List Material) (instances : Nat × Nat)
    (mesh : Mesh) : List Cmd :=
  match materials.get? mesh.material with
  | none => []
  | some material =>
    [Cmd.setVertexBuffer mesh.vertex_buffer.binding mesh.vertex_buffer,
     Cmd.setIndexBuffer mesh.index_buffer .Uint32,
     Cmd.setBindGroup material.bind_group.binding material.bind_group,
     Cmd.drawIndexed (0, mesh.num_elements) 0 instances]

/-- Model of `Stage::process` (`render_pass.rs` 29-208).  The error checks
appear in source order: missing color attachments, color-attachment build,
missing entities, missing instances, wrong pipeline variant (in the source
the pipeline check happens after the buffer/bind-group `set_*` calls are
recorded, but commands recorded before an error are never submitted, so the
submitted-command semantics is unchanged). -/
def Stage.process (s : Stage) (index : Nat) (label : String) :
    Except CoreError (List Cmd) :=
  match s with
  | .Render r_s =>
    match r_s.color_attachments with
    | none => .error (.EmptyRenderPassColorAttachemnts label)
    | some ca_builder =>
      match ca_builder.build with
      | .error e => .error e
      | .ok _color_attachments =>
        match r_s.entities with
        | none => .error (.EmptyEntities index)
        | some entities =>
          match r_s.instances with
          | none => .error (.EmptyInstances index)
          | some instances =>
            match r_s.pipeline.render with
            | none => .error (.NotRenderPipeline label)
            | some rp_handle =>
              let setup := renderStageSetup r_s rp_handle
              match r_s.model with
              | some m =>
                (match processMeshes m.materials instances m.meshes with
                 | .error e => .error e
                 | .ok loop_cmds => .ok (setup ++ loop_cmds))
              | none =>
                if r_s.index_buffer.isSome then
                  .ok (setup ++
                    [Cmd.drawIndexed entities (r_s.base_vertex.getD 0) instances])
                else
                  .ok (setup ++ [Cmd.draw entities instances])
  | .Compute c_s =>
    match c_s.pipeline.compute with
    | none => .error (.NotComputePipeline label)
    | some cp_handle =>
      .ok ([Cmd.setPipeline cp_handle] ++
        (match c_s.bind_groups with
         | some b_gs => b_gs.map (fun bg => Cmd.setBindGroup bg.binding bg)
         | none => []) ++
        [Cmd.dispatchWorkgroups c_s.x_dimension c_s.y_dimension c_s.z_dimension])

/-- The Stage Graph (`render_pass.rs`, `struct RenderPass`); the `BTreeMap`
of stages is modelled as its entry list in ascending key order. -/
structure RenderPass where
  id : Nat
  label : Option String
  stages : List (Nat × Stage)
  copy_params : Option CopyTextureParams
  deriving Repr, DecidableEq

/-- Model of `RenderPass::new`. -/
def RenderPass.new (id : Nat) : RenderPass :=
  { id := id, label := none, stages := [], copy_params := none }

/-- Model of the private `RenderPass::stage` helper (`BTreeMap::insert`):
last write wins on an existing key (with a warning log), otherwise sorted
insert. -/
def insertStage : List (Nat × Stage) → Nat → Stage → List (Nat × Stage)
  | [], k, s => [(k, s)]
  | (k2, s2) :: rest, k, s =>
    if k < k2 then (k, s) :: (k2, s2) :: rest
    else if k = k2 then (k, s) :: rest
    else (k2, s2) :: insertStage rest k s

/-- Model of `RenderPass::render_stage`. -/
def RenderPass.render_stage (rp : RenderPass) (index : Nat)
    (r_s : RenderStage) : RenderPass :=
  { rp with stages := insertStage rp.stages index (.Render r_s) }

/-- Model of `RenderPass::compute_stage`. -/
def RenderPass.compute_stage (rp : RenderPass) (index : Nat)
    (c_s : ComputeStage) : RenderPass :=
  { rp with stages := insertStage rp.stages index (.Compute c_s) }

/-- Model of the fluent `RenderPass::copy_params` setter. -/
def RenderPass.set_copy_params (rp : RenderPass) (c_p : CopyTextureParams) :
    RenderPass :=
  { rp with copy_params := some c_p }

/-- The effective pass label: `self.label.unwrap_or("Render pass: {id}")`. -/
def rpLabel (rp : RenderPass) : String :=
  rp.label.getD ("Render pass: " ++ toString rp.id)

/-- Process the stage entries in key order against one shared encoder,
stopping at the first error. -/
def processStages (label : String) :
    List (Nat × Stage) → Except CoreError (List Cmd)
  | [] => .ok []
  | (i, s) :: rest =>
    match s.process i label with
    | .error e => .error e
    | .ok cs =>
      match processStages label rest with
      | .error e => .error e
      | .ok rest_cs => .ok (cs ++ rest_cs)

/-- Model of `RenderPass::render` (`render_pass.rs` 435-466): process every
stage in key order; on the first error the function returns it and
`queue.submit` is never reached (no commands are issued); on success the
optional copy-out is appended as the final encoder command and the whole
list is submitted. -/
def RenderPass.render (rp : RenderPass) : Except CoreError (List Cmd) :=
  let label := rpLabel rp
  match processStages label rp.stages with
  | .error e => .error e
  | .ok stage_cmds =>
    let copy_cmds := match rp.copy_params with
      | some c_p => [Cmd.copyTextureToBuffer c_p.render_texture.id c_p.buffer.id]
      | none => []
    .ok (stage_cmds ++ copy_cmds)

/-- Device limits (`wgpu::Limits`), reduced to the one field the worker
reads. -/
structure Limits where
  max_texture_dimension_2d : Nat
  deriving Repr, DecidableEq

/-- Surface configuration (`surface_properties.config`), reduced to
width/height. -/
structure SurfaceConfig where
  width : Nat
  height : Nat
  deriving Repr, DecidableEq

/-- Offscreen view data (`worker.rs`, `struct ViewTexture`). -/
structure ViewTexture where
  render_texture : RenderTexture
  buffer : Buffer
  image_format : String
  path_to_save : String
  deriving Repr, DecidableEq

/-- The current frame's output target (`worker.rs`, `enum View`); the
acquired swapchain texture is opaque. -/
inductive View where
  | Surface
  | Texture (t : ViewTexture)
  deriving Repr, DecidableEq

/-- Device-side buffer contents as seen by the queue: buffer id → bytes. -/
def ByteStore : Type := Nat → List Nat

/-- The device session (`worker.rs`, `struct Worker`).  The `device`/`queue`
handles are implicit; `store` models the queue-side buffer contents that
`write_buffer` mutates and `read_buffer_async` observes. -/
structure Worker where
  limits : Limits
  surface_config : SurfaceConfig
  context : Context
  size : Nat × Nat
  scale_factor : ℚ
  view : Option View
  store : ByteStore

/-- Rust's saturating `as u32` cast from `f64`, on the exact-rational model:
truncation toward zero, clamped to `[0, 2^32 - 1]`. -/
def f64ToU32 (q : ℚ) : Nat := min ⌊q⌋.toNat (2 ^ 32 - 1)

/-- Model of `Worker::resize_by_size` (`worker/inner.rs` 50-61): a no-op
unless both dimensions are positive; otherwise store the new size unmodified
and reconfigure the surface to it.  No clamping happens here. -/
def Worker.resize_by_size (w : Worker) (new_size : Nat × Nat) : Worker :=
  if 0 < new_size.1 ∧ 0 < new_size.2 then
    { w with
      size := new_size
      surface_config := { width := new_size.1, height := new_size.2 } }
  else w

/-- Model of `Worker::resize`: `resize_by_size(self.size)`. -/
def Worker.resize (w : Worker) : Worker := w.resize_by_size w.size

/-- Model of `Worker::resize_by_scale` (`worker/inner.rs` 20-48): when the
current scale factor is positive, compute the rescaled dimensions, clamp each
to the device's `max_texture_dimension_2d` (logging when clamped), assign
them to `self.size` unconditionally, update the scale factor, then call
`resize()` (which skips the surface reconfiguration when a dimension is
zero but does not undo the `size` assignment). -/
def Worker.resize_by_scale (w : Worker) (new_scale_factor : ℚ) : Worker :=
  if 0 < w.scale_factor then
    let w_dim := f64ToU32 (((w.size.1 : ℚ) / w.scale_factor) * new_scale_factor)
    let h_dim := f64ToU32 (((w.size.2 : ℚ) / w.scale_factor) * new_scale_factor)
    let a_w := w.limits.max_texture_dimension_2d
    let a_h := w.limits.max_texture_dimension_2d
    let w2 := { w with
      size := (if a_w < w_dim then a_w else w_dim,
               if a_h < h_dim then a_h else h_dim)
      scale_factor := new_scale_factor }
    w2.resize
  else w

/-- Model of `wgpu::Queue::write_buffer`'s effect on one buffer's bytes:
splice `data` in at `offset`. -/
def writeBytes (bytes : List Nat) (offset : Nat) (data : List Nat) :
    List Nat :=
  bytes.take offset ++ data ++ bytes.drop (offset + data.length)

/-- Queue-level buffer write: update the byte store at the buffer's id. -/
def queueWriteBuffer (st : ByteStore) (b : Buffer) (offset : Nat)
    (data : List Nat) : ByteStore :=
  Function.update st b.id (writeBytes (st b.id) offset data)

/-- Model of the private `Worker::update_buffer_data` (`worker/inner.rs`
339-356): compute the `u64` sum `(size_of_val(data) as u64) + offset` —
which wraps modulo `2 ^ 64` for caller-supplied offsets near `u64::MAX`
(release-mode semantics; a debug build would panic there) — and reject
wholesale with `WrongBufferSize` when it exceeds `buffer.size()`, writing
nothing; otherwise write through the queue.  (`data.length` is the byte
length `size_of_val(data)`.) -/
def Worker.update_buffer_data (w : Worker) (b : Buffer) (offset : Nat)
    (data : List Nat) : Except CoreError Unit × ByteStore :=
  let buffer_size := b.size
  let data_len := (data.length + offset) % 2 ^ 64
  if buffer_size < data_len then (.error .WrongBufferSize, w.store)
  else (.ok (), queueWriteBuffer w.store b offset data)

/-- Model of `Worker::update_buffer`: arena lookup, then the shared write. -/
def Worker.update_buffer (w : Worker) (id : Nat) (offset : Nat)
    (data : List Nat) : Except CoreError Unit × ByteStore :=
  match w.context.get_buffer_ref id with
  | .error e => (.error e, w.store)
  | .ok b => w.update_buffer_data b offset data

/-- Model of `Worker::update_buffer_direct`. -/
def Worker.update_buffer_direct (w : Worker) (b : Buffer) (offset : Nat)
    (data : List Nat) : Except CoreError Unit × ByteStore :=
  w.update_buffer_data b offset data

/-- Model of `Worker::update_uniform_direct`: name lookup inside the uniform
group, then the shared write at offset 0. -/
def Worker.update_uniform_direct (w : Worker) (uniform : Uniforms)
    (name : String) (data : List Nat) : Except CoreError Unit × ByteStore :=
  match uniform.get_buffer name with
  | none => (.error (.UniformBufferNotFound name), w.store)
  | some buffer => w.update_buffer_data buffer 0 data

/-- Model of `Worker::update_uniform`. -/
def Worker.update_uniform (w : Worker) (id : Nat) (name : String)
    (data : List Nat) : Except CoreError Unit × ByteStore :=
  match w.context.get_uniform_ref id with
  | .error e => (.error e, w.store)
  | .ok uniform => w.update_uniform_direct uniform name data

/-- Model of `Worker::update_storage_direct`. -/
def Worker.update_storage_direct (w : Worker) (storage : Storages)
    (name : String) (data : List Nat) : Except CoreError Unit × ByteStore :=
  match storage.get_buffer name with
  | none => (.error (.StorageNotFound name), w.store)
  | some buffer => w.update_buffer_data buffer 0 data

/-- Model of `Worker::update_storage`. -/
def Worker.update_storage (w : Worker) (id : Nat) (name : String)
    (data : List Nat) : Except CoreError Unit × ByteStore :=
  match w.context.get_storage_ref id with
  | .error e => (.error e, w.store)
  | .ok storage => w.update_storage_direct storage name data

/-- Model of `Worker::render` (`worker/inner.rs` 68-84): with no current View
the whole body sits inside `if let Some(view)` and the function returns
`Ok(())` — a successful no-op submitting nothing.  With an offscreen
(texture) View the copy-out params are set before delegating to
`RenderPass::render`; with a surface View it delegates directly. -/
def Worker.render (w : Worker) (render_pass : RenderPass) :
    Except CoreError (List Cmd) :=
  match w.view with
  | some (View.Texture t) =>
    RenderPass.render
      { render_pass with copy_params := some ⟨t.buffer, t.render_texture⟩ }
  | some View.Surface => RenderPass.render render_pass
  | none => .ok []

/-- Observable effect of `Worker::present`. -/
inductive PresentEffect where
  | nothing
  | presented
  | saved (path : String) (bytes : List Nat)
  deriving Repr, DecidableEq

/-- Model of `ImageBuffer::<Rgba<u8>, _>::from_raw`: requires at least
`width * height * 4` bytes in the container. -/
def imageFromRaw (width height : Nat) (data : List Nat) :
    Option (List Nat) :=
  if width * height * 4 ≤ data.length then some data else none

/-- Model of `Worker::present` (`worker/inner.rs` 249-269): `self.view.take()`
always clears the View; a surface View is handed to the display; a texture
View has its readback buffer read and saved as an image under
`path_to_save.image_format`; with no View the match falls through the
`_ => {}` arm and the call succeeds doing nothing. -/
def Worker.present (w : Worker) : Except CoreError PresentEffect × Worker :=
  let v := w.view
  let w2 := { w with view := none }
  match v with
  | some View.Surface => (.ok .presented, w2)
  | some (View.Texture t) =>
    let data := w.store t.buffer.id
    match imageFromRaw w.size.1 w.size.2 data with
    | none => (.error .ImageBufferCreate, w2)
    | some i_b =>
      (.ok (.saved (t.path_to_save ++ "." ++ t.image_format) i_b), w2)
  | none => (.ok .nothing, w2)

/-- Concrete fixture: a 4-byte buffer registered under id 1. -/
def bufC2 : Buffer := ⟨1, 0, 4⟩

/-- Concrete fixture: a uniform group exposing `bufC2` under the name "u". -/
def uniC2 : Uniforms := ⟨2, fun n => if n = "u" then some bufC2 else none⟩

/-- Concrete fixture: a storage group exposing `bufC2` under the name "u". -/
def stoC2 : Storages := ⟨3, fun n => if n = "u" then some bufC2 else none⟩

/-- Concrete fixture: an arena holding the buffer, uniform and storage
fixtures. -/
def ctxC2 : Context :=
  { Context.empty with
    buffers := Function.update Context.empty.buffers 1 (some bufC2)
    uniforms := Function.update Context.empty.uniforms 2 (some uniC2)
    storages := Function.update Context.empty.storages 3 (some stoC2) }

/-- Concrete fixture: a session over `ctxC2` with a zeroed 4-byte store. -/
def wC2 : Worker :=
  ⟨⟨8192⟩, ⟨4, 4⟩, ctxC2, (4, 4), 1, none, fun _ => [0, 0, 0, 0]⟩

/-- Concrete fixture: a session with no current View. -/
def wC1 : Worker :=
  ⟨⟨8192⟩, ⟨2, 2⟩, Context.empty, (2, 2), 1, none, fun _ => []⟩

/-- Concrete fixture: a 2×2 session with scale factor 1 and a large device
limit. -/
def wC7 : Worker :=
  ⟨⟨8192⟩, ⟨2, 2⟩, Context.empty, (2, 2), 1, none, fun _ => []⟩

/-- Concrete fixture: a 2×2 session whose device limit is only 4. -/
def wC8 : Worker :=
  ⟨⟨4⟩, ⟨2, 2⟩, Context.empty, (2, 2), 1, none, fun _ => []⟩

/-- Concrete fixture: a color-attachment builder with its view set. -/
def cabC5 : ColorAttachmentBuilder := ⟨none, none, some 0, none⟩

/-- Concrete fixture: a render stage whose color attachments are set but
whose entity range is missing. -/
def stageNoEntities : RenderStage :=
  ⟨⟨0, .Render 0⟩, none, none, none, none, none, none, none, some cabC5,
    none, none, none, none, none, none⟩

/-- Concrete fixture: a render stage whose color-attachment configuration is
missing (entities and instances are set). -/
def stageNoColors : RenderStage :=
  ⟨⟨1, .Render 1⟩, none, none, none, none, some (0, 1), none, some (0, 3),
    none, none, none, none, none, none, none⟩

/-- Concrete fixture: a two-stage graph whose first stage fails for a reason
other than color attachments while its second stage is missing them. -/
def rpC5 : RenderPass :=
  ⟨0, none, [(0, .Render stageNoEntities), (1, .Render stageNoColors)], none⟩

/-- Concrete fixture: a one-stage graph whose only stage is missing its
color attachments. -/
def rpC5w : RenderPass := ⟨1, none, [(0, .Render stageNoColors)], none⟩

/-- Concrete fixture: first mesh (6 indices, material 0, own buffers). -/
def meshA : Mesh := ⟨0, "a", 6, 0, ⟨10, 0, 96⟩, ⟨11, 0, 12⟩⟩

/-- Concrete fixture: second mesh (9 indices, material 0, own buffers). -/
def meshB : Mesh := ⟨1, "b", 9, 0, ⟨12, 0, 144⟩, ⟨13, 0, 18⟩⟩

/-- Concrete fixture: the single material, with its bind group. -/
def matA : Material := ⟨2, "m", ⟨20, 1⟩⟩

/-- Concrete fixture: a model with two meshes and one material. -/
def modelC6 : Model := ⟨3, [meshA, meshB], [matA]⟩

/-- Concrete fixture: a fully configured render stage bound to `modelC6`,
instance range 0..2. -/
def stageC6 : RenderStage :=
  ⟨⟨4, .Render 7⟩, none, none, none, some modelC6, some (0, 2), none,
    some (0, 6), some ⟨none, none, some 0, none⟩, none, none, none, none,
    none, none⟩

/-- One arena operation changes the `buffers` map at id `i` exactly as the
specification-side step predicts. -/
lemma applyOp_buffers (c : Context) (op : Op) (i : Nat) :
    (c.applyOp op).buffers i = storedBufferStep i (c.buffers i) op := by
  cases op with
  | addBuffer b =>
    by_cases hid : b.id = i
    · subst hid
      by_cases hb : (c.buffers b.id).isSome <;>
        simp [Context.applyOp, Context.add_buffer, storedBufferStep, hb,
          Function.update_apply]
    · have hid2 : ¬ i = b.id := fun h => hid h.symm
      by_cases hb : (c.buffers b.id).isSome <;>
        simp [Context.applyOp, Context.add_buffer, storedBufferStep, hb, hid,
          hid2, Function.update_apply]
  | replaceBuffer id b =>
    by_cases hid : id = i
    · subst hid
      by_cases hb : (c.buffers id).isSome <;>
        simp [Context.applyOp, Context.replace_buffer, storedBufferStep, hb,
          Function.update_apply]
    · have hid2 : ¬ i = id := fun h => hid h.symm
      by_cases hb : (c.buffers id).isSome <;>
        simp [Context.applyOp, Context.replace_buffer, storedBufferStep, hb,
          hid, hid2, Function.update_apply]
  | takeBuffer id =>
    by_cases hid : id = i
    · subst hid
      cases hb : c.buffers id <;>
        simp [Context.applyOp, Context.take_buffer, storedBufferStep, hb,
          Function.update_apply]
    · have hid2 : ¬ i = id := fun h => hid h.symm
      cases hb : c.buffers id <;>
        simp [Context.applyOp, Context.take_buffer, storedBufferStep, hb, hid,
          hid2, Function.update_apply]
  | addPipeline p =>
    by_cases hp : (c.pipelines p.id).isSome <;>
      simp [Context.applyOp, Context.add_pipeline, storedBufferStep, hp]
  | replacePipeline id p =>
    by_cases hp : (c.pipelines id).isSome <;>
      simp [Context.applyOp, Context.replace_pipeline, storedBufferStep, hp]
  | takePipeline id =>
    cases hp : c.pipelines id <;>
      simp [Context.applyOp, Context.take_pipeline, storedBufferStep, hp]

/-- One arena operation changes the `pipelines` map at id `i` exactly as the
specification-side step predicts. -/
lemma applyOp_pipelines (c : Context) (op : Op) (i : Nat) :
    (c.applyOp op).pipelines i = storedPipelineStep i (c.pipelines i) op := by
  cases op with
  | addPipeline p =>
    by_cases hid : p.id = i
    · subst hid
      by_cases hb : (c.pipelines p.id).isSome <;>
        simp [Context.applyOp, Context.add_pipeline, storedPipelineStep, hb,
          Function.update_apply]
    · have hid2 : ¬ i = p.id := fun h => hid h.symm
      by_cases hb : (c.pipelines p.id).isSome <;>
        simp [Context.applyOp, Context.add_pipeline, storedPipelineStep, hb,
          hid, hid2, Function.update_apply]
  | replacePipeline id p =>
    by_cases hid : id = i
    · subst hid
      by_cases hb : (c.pipelines id).isSome <;>
        simp [Context.applyOp, Context.replace_pipeline, storedPipelineStep,
          hb, Function.update_apply]
    · have hid2 : ¬ i = id := fun h => hid h.symm
      by_cases hb : (c.pipelines id).isSome <;>
        simp [Context.applyOp, Context.replace_pipeline, storedPipelineStep,
          hb, hid, hid2, Function.update_apply]
  | takePipeline id =>
    by_cases hid : id = i
    · subst hid
      cases hb : c.pipelines id <;>
        simp [Context.applyOp, Context.take_pipeline, storedPipelineStep, hb,
          Function.update_apply]
    · have hid2 : ¬ i = id := fun h => hid h.symm
      cases hb : c.pipelines id <;>
        simp [Context.applyOp, Context.take_pipeline, storedPipelineStep, hb,
          hid, hid2, Function.update_apply]
  | addBuffer b =>
    by_cases hp : (c.buffers b.id).isSome <;>
      simp [Context.applyOp, Context.add_buffer, storedPipelineStep, hp]
  | replaceBuffer id b =>
    by_cases hp : (c.buffers id).isSome <;>
      simp [Context.applyOp, Context.replace_buffer, storedPipelineStep, hp]
  | takeBuffer id =>
    cases hp : c.buffers id <;>
      simp [Context.applyOp, Context.take_buffer, storedPipelineStep, hp]

/-- A whole operation sequence changes the `buffers` map at id `i` exactly as
the specification-side fold predicts. -/
lemma applyOps_buffers (ops : List Op) (c : Context) (i : Nat) :
    (c.applyOps ops).buffers i = storedBufferAfter i (c.buffers i) ops := by
  induction ops generalizing c with
  | nil => rfl
  | cons op rest ih =>
    simp only [Context.applyOps, storedBufferAfter]
    rw [ih, applyOp_buffers]

/-- A whole operation sequence changes the `pipelines` map at id `i` exactly
as the specification-side fold predicts. -/
lemma applyOps_pipelines (ops : List Op) (c : Context) (i : Nat) :
    (c.applyOps ops).pipelines i = storedPipelineAfter i (c.pipelines i) ops := by
  induction ops generalizing c with
  | nil => rfl
  | cons op rest ih =>
    simp only [Context.applyOps, storedPipelineAfter]
    rw [ih, applyOp_pipelines]

/-- Updating a boolean map to `true` somewhere preserves `true` everywhere it
already held. -/
lemma update_true_of_true {f : Nat → Bool} {a i : Nat} (h : f i = true) :
    Function.update f a true i = true := by
  rw [Function.update_apply]
  split <;> simp [h]

/-- No single arena operation ever removes an id from the global id set. -/
lemma applyOp_ids_mono (c : Context) (op : Op) (i : Nat) (h : c.ids i = true) :
    (c.applyOp op).ids i = true := by
  cases op with
  | addBuffer b =>
    by_cases hb : (c.buffers b.id).isSome
    · simpa [Context.applyOp, Context.add_buffer, hb] using h
    · simp only [Context.applyOp, Context.add_buffer, hb, if_false]
      exact update_true_of_true h
  | replaceBuffer id b =>
    by_cases hb : (c.buffers id).isSome <;>
      simpa [Context.applyOp, Context.replace_buffer, hb] using h
  | takeBuffer id =>
    cases hb : c.buffers id <;>
      simpa [Context.applyOp, Context.take_buffer, hb] using h
  | addPipeline p =>
    by_cases hp : (c.pipelines p.id).isSome
    · simpa [Context.applyOp, Context.add_pipeline, hp] using h
    · simp only [Context.applyOp, Context.add_pipeline, hp, if_false]
      exact update_true_of_true h
  | replacePipeline id p =>
    by_cases hp : (c.pipelines id).isSome <;>
      simpa [Context.applyOp, Context.replace_pipeline, hp] using h
  | takePipeline id =>
    cases hp : c.pipelines id <;>
      simpa [Context.applyOp, Context.take_pipeline, hp] using h

/-- The global id set only grows along any operation sequence. -/
lemma applyOps_ids_mono (ops : List Op) (c : Context) (i : Nat)
    (h : c.ids i = true) : (c.applyOps ops).ids i = true := by
  induction ops generalizing c with
  | nil => exact h
  | cons op rest ih => exact ih _ (applyOp_ids_mono c op i h)

/-- Whatever value the sampling loop returns was not in the id set. -/
lemma genLoop_not_mem (ids : Nat → Bool) (rng : Nat → Nat) :
    ∀ fuel k v, genLoop ids rng fuel k = some v → ids v = false := by
  intro fuel
  induction fuel with
  | zero => intro k v h; simp [genLoop] at h
  | succ n ih =>
    intro k v h
    simp only [genLoop] at h
    cases hval : ids (rng k) with
    | true => rw [hval] at h; simp at h; exact ih _ _ h
    | false => rw [hval] at h; simp at h; subst h; exact hval

/-- Re-applying the current size through `resize_by_size` never changes the
reported size (whether or not the surface is reconfigured). -/
lemma resize_by_size_size_self (w : Worker) :
    (w.resize_by_size w.size).size = w.size := by
  unfold Worker.resize_by_size
  split <;> rfl

/-- Size assignment of a rescale with a positive current scale factor: the
reported size always becomes the clamped computed pair, whether or not the
inner `resize_by_size` reconfigures the surface. -/
lemma resize_by_scale_size (w : Worker) (f : ℚ) (hpos : 0 < w.scale_factor) :
    (w.resize_by_scale f).size =
      (if w.limits.max_texture_dimension_2d <
          f64ToU32 (((w.size.1 : ℚ) / w.scale_factor) * f)
       then w.limits.max_texture_dimension_2d
       else f64ToU32 (((w.size.1 : ℚ) / w.scale_factor) * f),
       if w.limits.max_texture_dimension_2d <
          f64ToU32 (((w.size.2 : ℚ) / w.scale_factor) * f)
       then w.limits.max_texture_dimension_2d
       else f64ToU32 (((w.size.2 : ℚ) / w.scale_factor) * f)) := by
  simp only [Worker.resize_by_scale, if_pos hpos, Worker.resize]
  rw [resize_by_size_size_self]

/-- Processing a stage list that contains a render stage with missing color
attachments always errors; and it errors with exactly the
missing-color-attachment error when every entry before that stage processes
successfully. -/
lemma processStages_missing_colors (label : String) (k : Nat)
    (r_s : RenderStage) (hc : r_s.color_attachments = none) :
    ∀ pre post : List (Nat × Stage),
      (∃ e, processStages label (pre ++ (k, Stage.Render r_s) :: post) =
        .error e) ∧
      ((∀ p ∈ pre, ∃ cs, Stage.process p.2 p.1 label = .ok cs) →
        processStages label (pre ++ (k, Stage.Render r_s) :: post) =
          .error (.EmptyRenderPassColorAttachemnts label)) := by
  intro pre
  induction pre with
  | nil =>
    intro post
    constructor
    · exact ⟨.EmptyRenderPassColorAttachemnts label, by
        simp [processStages, Stage.process, hc]⟩
    · intro _
      simp [processStages, Stage.process, hc]
  | cons p rest ih =>
    intro post
    obtain ⟨i, s⟩ := p
    constructor
    · cases hp : Stage.process s i label with
      | error e => exact ⟨e, by simp [processStages, hp]⟩
      | ok cs =>
        obtain ⟨e, he⟩ := (ih post).1
        exact ⟨e, by simp [processStages, hp, he]⟩
    · intro hpre
      obtain ⟨cs, hcs⟩ := hpre ⟨i, s⟩ (List.mem_cons_self _ _)
      have hcs2 : Stage.process s i label = .ok cs := hcs
      have h2 := (ih post).2 (fun q hq => hpre q (List.mem_cons_of_mem _ hq))
      simp [processStages, hcs2, h2]

/-- A list lookup below the length succeeds. -/
lemma get?_some_of_lt {α : Type} (l : List α) (n : Nat) (h : n < l.length) :
    ∃ x, l[n]? = some x := by
  cases hq : l[n]? with
  | some x => exact ⟨x, rfl⟩
  | none =>
    rw [List.getElem?_eq_none_iff] at hq
    omega

/-- The model loop succeeds when every mesh's material index is in bounds,
recording exactly the per-mesh blocks in mesh order. -/
lemma processMeshes_ok (materials : List Material) (inst : Nat × Nat) :
    ∀ meshes : List Mesh,
      (∀ mesh ∈ meshes, mesh.material < materials.length) →
      processMeshes materials inst meshes =
        .ok ((meshes.map (meshBlock materials inst)).flatten) := by
  intro meshes
  induction meshes with
  | nil => intro _; rfl
  | cons mesh rest ih =>
    intro hb
    obtain ⟨mat, hmat⟩ := get?_some_of_lt materials mesh.material
      (hb mesh (List.mem_cons_self _ _))
    have hr := ih (fun mm hmm => hb mm (List.mem_cons_of_mem _ hmm))
    simp [processMeshes, hmat, hr, meshBlock]

/-- Bind-group set commands are never draws. -/
lemma filter_isDraw_map_bindGroup (l : List BindGroup) :
    (l.map (fun bg => Cmd.setBindGroup bg.binding bg)).filter Cmd.isDraw
      = [] := by
  induction l with
  | nil => rfl
  | cons bg rest ih =>
    simp [List.filter_cons,
      show ∀ a b, Cmd.isDraw (Cmd.setBindGroup a b) = false from
        fun _ _ => rfl, ih]

/-- Filtering an optional component's commands yields nothing when each
possible contribution contains no match. -/
lemma optCmds_filter_nil {α : Type} (o : Option α) (f : α → List Cmd)
    (h : ∀ x, (f x).filter Cmd.isDraw = []) :
    (optCmds o f).filter Cmd.isDraw = [] := by
  cases o with
  | none => rfl
  | some x => exact h x

/-- The fixed-function setup of a render stage contains no draw commands. -/
lemma renderStageSetup_no_draw (r_s : RenderStage) (hd : Nat) :
    (renderStageSetup r_s hd).filter Cmd.isDraw = [] := by
  have h1 : (optCmds r_s.vertex_buffer
      (fun vb => [Cmd.setVertexBuffer vb.binding vb])).filter Cmd.isDraw
      = [] := optCmds_filter_nil _ _ (fun vb => rfl)
  have h2 : (optCmds r_s.index_buffer
      (fun ib => [Cmd.setIndexBuffer ib .Uint16])).filter Cmd.isDraw
      = [] := optCmds_filter_nil _ _ (fun ib => rfl)
  have h3 : (optCmds r_s.bind_groups
      (fun b_gs => b_gs.map
        (fun bg => Cmd.setBindGroup bg.binding bg))).filter Cmd.isDraw
      = [] :=
    optCmds_filter_nil _ _ (fun b_gs => filter_isDraw_map_bindGroup b_gs)
  have h4 : (optCmds r_s.viewport
      (fun v => [Cmd.setViewport v])).filter Cmd.isDraw
      = [] := optCmds_filter_nil _ _ (fun v => rfl)
  have h5 : (optCmds r_s.scissors
      (fun s => [Cmd.setScissorRect s])).filter Cmd.isDraw
      = [] := optCmds_filter_nil _ _ (fun s => rfl)
  have h6 : (optCmds r_s.blend_constant
      (fun b_c => [Cmd.setBlendConstant b_c])).filter Cmd.isDraw
      = [] := optCmds_filter_nil _ _ (fun b_c => rfl)
  have h7 : (optCmds r_s.stencil_reference
      (fun s_r => [Cmd.setStencilReference s_r])).filter Cmd.isDraw
      = [] := optCmds_filter_nil _ _ (fun s_r => rfl)
  simp [renderStageSetup, List.filter_append, h1, h2, h3, h4, h5, h6, h7,
    List.filter_cons,
    show Cmd.isDraw (Cmd.setPipeline hd) = false from rfl]

/-- The draw commands of the concatenated mesh blocks are exactly one indexed
draw per mesh, in mesh order. -/
lemma join_meshBlocks_filter (materials : List Material) (inst : Nat × Nat) :
    ∀ meshes : List Mesh,
      (∀ mesh ∈ meshes, mesh.material < materials.length) →
      ((meshes.map (meshBlock materials inst)).flatten.filter Cmd.isDraw) =
        meshes.map (fun mesh => Cmd.drawIndexed (0, mesh.num_elements) 0 inst) := by
  intro meshes
  induction meshes with
  | nil => intro _; rfl
  | cons mesh rest ih =>
    intro hb
    obtain ⟨mat, hmat⟩ := get?_some_of_lt materials mesh.material
      (hb mesh (List.mem_cons_self _ _))
    have hr := ih (fun mm hmm => hb mm (List.mem_cons_of_mem _ hmm))
    simp [meshBlock, hmat, List.filter_append, List.filter_cons,
      hr,
      show ∀ a b, Cmd.isDraw (Cmd.setVertexBuffer a b) = false from
        fun _ _ => rfl,
      show ∀ a b, Cmd.isDraw (Cmd.setIndexBuffer a b) = false from
        fun _ _ => rfl,
      show ∀ a b, Cmd.isDraw (Cmd.setBindGroup a b) = false from
        fun _ _ => rfl,
      show ∀ a b c, Cmd.isDraw (Cmd.drawIndexed a b c) = true from
        fun _ _ _ => rfl]

/-- C3: for every sequence of add/replace/take operations applied to a
Context and every id, `get_<kind>(id)` returns the most recently
inserted-or-replaced value stored under that id, and returns the NotFound
error `ContextFieldIsNotExist` naming the kind and the id once `take_<kind>`
has removed it; the maps for the buffer and pipeline kinds evolve
independently (each kind's history fold ignores the other kind's
operations by definition). -/
theorem context_get_follows_history (c : Context) (ops : List Op) (i : Nat) :
    ((c.applyOps ops).get_buffer i =
      match storedBufferAfter i (c.buffers i) ops with
      | some b => .ok b
      | none => .error (.ContextFieldIsNotExist "Buffer" i)) ∧
    ((c.applyOps ops).get_pipeline i =
      match storedPipelineAfter i (c.pipelines i) ops with
      | some p => .ok p
      | none => .error (.ContextFieldIsNotExist "Pipeline" i)) := by
  constructor
  · simp only [Context.get_buffer]
    rw [applyOps_buffers]
  · simp only [Context.get_pipeline]
    rw [applyOps_pipelines]

/-- C4: whenever `generate_unique_id` returns an id (i.e. its sampling loop
terminates), the returned id is absent from the arena's global id set. -/
theorem generate_unique_id_fresh (c : Context) (rng : Nat → Nat)
    (fuel v : Nat) (h : c.generate_unique_id rng fuel = some v) :
    c.ids v = false :=
  genLoop_not_mem c.ids rng fuel 0 v h

/-- Witness for `generate_unique_id_fresh`: in a context holding only id 0,
with samples 0, 1, 2, … the generator returns 1, which is indeed absent. -/
theorem generate_unique_id_fresh_witness :
    (Context.empty.add_buffer ⟨0, 0, 64⟩).generate_unique_id (fun n => n) 2 =
      some 1 ∧
    (Context.empty.add_buffer ⟨0, 0, 64⟩).ids 1 = false := by
  refine ⟨by decide, ?_⟩
  exact generate_unique_id_fresh (Context.empty.add_buffer ⟨0, 0, 64⟩)
    (fun n => n) 2 1 (by decide)

/-- C9: `add_<kind>` rejects duplicates only against its own kind's map — a
buffer and a pipeline carrying the same id can both be added into an empty
Context, even though the first add already put that id into the global id
set. -/
theorem add_same_id_two_kinds (b : Buffer) (p : Pipeline) (h : p.id = b.id) :
    ((Context.empty.add_buffer b).ids b.id = true) ∧
    (((Context.empty.add_buffer b).add_pipeline p).get_buffer b.id = .ok b) ∧
    (((Context.empty.add_buffer b).add_pipeline p).get_pipeline b.id = .ok p) := by
  refine ⟨?_, ?_, ?_⟩
  · simp [Context.empty, Context.add_buffer, Function.update_apply]
  · simp [Context.empty, Context.add_buffer, Context.add_pipeline,
      Context.get_buffer, Function.update_apply]
  · simp [Context.empty, Context.add_buffer, Context.add_pipeline,
      Context.get_pipeline, Function.update_apply, h]

/-- Witness for `add_same_id_two_kinds` at id 5. -/
theorem add_same_id_two_kinds_witness :
    ((Context.empty.add_buffer ⟨5, 0, 64⟩).ids 5 = true) ∧
    (((Context.empty.add_buffer ⟨5, 0, 64⟩).add_pipeline
        ⟨5, .Render 0⟩).get_buffer 5 = .ok ⟨5, 0, 64⟩) ∧
    (((Context.empty.add_buffer ⟨5, 0, 64⟩).add_pipeline
        ⟨5, .Render 0⟩).get_pipeline 5 = .ok ⟨5, .Render 0⟩) :=
  add_same_id_two_kinds ⟨5, 0, 64⟩ ⟨5, .Render 0⟩ rfl

/-- C10: `take_buffer` removes the resource from the buffer map but not from
the global id set; the id set only grows along any operation sequence; hence
`generate_unique_id` never returns an id that was once successfully added,
even after the resource registered under it has been taken. -/
theorem ids_grow_and_gen_avoids (c c2 : Context) (b : Buffer) (ops : List Op)
    (j : Nat) (rng : Nat → Nat) (fuel v : Nat)
    (hb : c.buffers b.id = none) :
    ((c2.take_buffer j).2.buffers j = none ∧ (c2.take_buffer j).2.ids = c2.ids) ∧
    (((c.add_buffer b).applyOps ops).ids b.id = true) ∧
    (((c.add_buffer b).applyOps ops).generate_unique_id rng fuel = some v →
      v ≠ b.id) := by
  have hins : (c.add_buffer b).ids b.id = true := by
    simp [Context.add_buffer, hb, Function.update_apply]
  have hmem : ((c.add_buffer b).applyOps ops).ids b.id = true :=
    applyOps_ids_mono ops _ _ hins
  refine ⟨⟨?_, ?_⟩, hmem, ?_⟩
  · cases hj : c2.buffers j <;>
      simp [Context.take_buffer, hj, Function.update_apply]
  · cases hj : c2.buffers j <;> simp [Context.take_buffer, hj]
  · intro hgen heq
    have := genLoop_not_mem _ rng fuel 0 v hgen
    rw [heq, hmem] at this
    exact Bool.noConfusion this

/-- Witness for `ids_grow_and_gen_avoids`: add buffer id 3 into an empty
arena, take it again; id 3 stays in the id set and the generator, offered the
samples 3, 7, skips 3 and returns 7. -/
theorem ids_grow_and_gen_avoids_witness :
    Context.empty.buffers (3 : Nat) = none ∧
    ((Context.empty.add_buffer ⟨3, 0, 16⟩).applyOps [Op.takeBuffer 3]).ids 3 =
      true ∧
    ((Context.empty.add_buffer ⟨3, 0, 16⟩).applyOps
        [Op.takeBuffer 3]).generate_unique_id
      (fun n => if n = 0 then 3 else 7) 2 = some 7 ∧ (7 : Nat) ≠ 3 := by
  have h := ids_grow_and_gen_avoids Context.empty Context.empty ⟨3, 0, 16⟩
    [Op.takeBuffer 3] 3 (fun n => if n = 0 then 3 else 7) 2 7 rfl
  exact ⟨rfl, h.2.1, by decide, h.2.2 (by decide)⟩

/-- The checked write in closed form: the capacity comparison is against the
wrapping `u64` sum of byte length and offset. -/
lemma update_buffer_data_eq (w : Worker) (b : Buffer) (offset : Nat)
    (data : List Nat) :
    w.update_buffer_data b offset data =
      if b.size < (offset + data.length) % 2 ^ 64
      then (.error .WrongBufferSize, w.store)
      else (.ok (), queueWriteBuffer w.store b offset data) := by
  simp only [Worker.update_buffer_data]
  rw [Nat.add_comm data.length offset]

/-- C2 counterexample: the offset parameter is a caller-supplied `u64`, and
the capacity check sums it with the byte length in `u64`.  At offset
`2 ^ 64 - 1` a 2-byte write into the 4-byte buffer has
`O + K = 2 ^ 64 + 1 > 4`, so the claim requires the capacity error — but the
sum wraps to 1, the check passes, and the function returns `Ok` (and
proceeds to the write).  In a debug build the addition panics instead; on
no build does the call return the claimed capacity error. -/
theorem buffer_write_overflow_cex :
    bufC2.size = 4 ∧
    (4 : Nat) < 2 ^ 64 - 1 + 2 ∧
    (wC2.update_buffer_data bufC2 (2 ^ 64 - 1) [7, 8]).1 = .ok () ∧
    (wC2.update_buffer_data bufC2 (2 ^ 64 - 1) [7, 8]).1 ≠
      .error .WrongBufferSize := by
  refine ⟨rfl, by norm_num, rfl, ?_⟩
  intro h
  have h2 : (Except.ok () : Except CoreError Unit) =
      .error .WrongBufferSize := h
  exact Except.noConfusion h2

/-- C2 amended: a buffer write of `K` bytes at byte offset `O` through the
shared `update_buffer_data` succeeds iff the wrapping `u64` sum
`(O + K) mod 2 ^ 64` is at most the capacity — equivalently, iff
`O + K ≤ capacity` whenever `O + K < 2 ^ 64` (every realistic call); when
the check fails it returns the capacity error `WrongBufferSize` and the byte
store — every prior byte of every buffer — is unchanged; on success it
writes through the queue; `update_buffer` (after arena lookup),
`update_buffer_direct`, `update_uniform` and `update_storage` (after their
name lookups, writing at offset 0) all reduce to this same checked write. -/
theorem buffer_write_capacity (w : Worker) (b : Buffer) (offset : Nat)
    (data : List Nat) (i j k : Nat) (u : Uniforms) (st : Storages)
    (name : String)
    (hbuf : w.context.buffers i = some b)
    (huni : w.context.uniforms j = some u)
    (hsto : w.context.storages k = some st)
    (hub : u.get_buffer name = some b)
    (hsb : st.get_buffer name = some b) :
    ((w.update_buffer_data b offset data).1 = .ok () ↔
      (offset + data.length) % 2 ^ 64 ≤ b.size) ∧
    (offset + data.length < 2 ^ 64 →
      ((w.update_buffer_data b offset data).1 = .ok () ↔
        offset + data.length ≤ b.size)) ∧
    (b.size < (offset + data.length) % 2 ^ 64 →
      w.update_buffer_data b offset data = (.error .WrongBufferSize, w.store)) ∧
    ((offset + data.length) % 2 ^ 64 ≤ b.size →
      w.update_buffer_data b offset data =
        (.ok (), queueWriteBuffer w.store b offset data)) ∧
    (w.update_buffer i offset data = w.update_buffer_data b offset data) ∧
    (w.update_buffer_direct b offset data = w.update_buffer_data b offset data) ∧
    (w.update_uniform j name data = w.update_buffer_data b 0 data) ∧
    (w.update_storage k name data = w.update_buffer_data b 0 data) := by
  have he := update_buffer_data_eq w b offset data
  refine ⟨?_, ?_, ?_, ?_, ?_, rfl, ?_, ?_⟩
  · rw [he]
    by_cases hlt : b.size < (offset + data.length) % 2 ^ 64
    · rw [if_pos hlt]
      constructor
      · intro hok
        exact Except.noConfusion hok
      · intro hle
        exact absurd hlt (Nat.not_lt.mpr hle)
    · rw [if_neg hlt]
      exact ⟨fun _ => Nat.not_lt.mp hlt, fun _ => rfl⟩
  · intro hsmall
    have hmod : (offset + data.length) % 2 ^ 64 = offset + data.length :=
      Nat.mod_eq_of_lt hsmall
    rw [he, hmod]
    by_cases hlt : b.size < offset + data.length
    · rw [if_pos hlt]
      constructor
      · intro hok
        exact Except.noConfusion hok
      · intro hle
        exact absurd hlt (Nat.not_lt.mpr hle)
    · rw [if_neg hlt]
      exact ⟨fun _ => Nat.not_lt.mp hlt, fun _ => rfl⟩
  · intro hgt
    rw [he, if_pos hgt]
  · intro hle
    rw [he, if_neg (Nat.not_lt.mpr hle)]
  · simp [Worker.update_buffer, Context.get_buffer_ref, hbuf]
  · simp [Worker.update_uniform, Context.get_uniform_ref, huni,
      Worker.update_uniform_direct, hub]
  · simp [Worker.update_storage, Context.get_storage_ref, hsto,
      Worker.update_storage_direct, hsb]

/-- Witness for `buffer_write_capacity`: on the 4-byte buffer, a 3-byte write
at offset 2 ((2 + 3) mod 2^64 = 5 > 4) is rejected leaving the store
untouched; the same 3 bytes at offset 0 are written. -/
theorem buffer_write_capacity_witness :
    wC2.update_buffer_data bufC2 2 [7, 8, 9] =
      (.error .WrongBufferSize, wC2.store) ∧
    wC2.update_buffer_data bufC2 0 [7, 8, 9] =
      (.ok (), queueWriteBuffer wC2.store bufC2 0 [7, 8, 9]) := by
  have h := buffer_write_capacity wC2 bufC2 2 [7, 8, 9] 1 2 3 uniC2 stoC2 "u"
    rfl rfl rfl rfl rfl
  have h0 := buffer_write_capacity wC2 bufC2 0 [7, 8, 9] 1 2 3 uniC2 stoC2 "u"
    rfl rfl rfl rfl rfl
  exact ⟨h.2.2.1 (by norm_num [bufC2]), h0.2.2.2.1 (by norm_num [bufC2])⟩

/-- C1 counterexample: in a session whose current View is absent, both
`render` and `present` return `Ok` (successful no-ops) — neither fails with
`NotInitView` as the claim states. -/
theorem render_present_no_view_cex :
    wC1.view = none ∧
    wC1.render (RenderPass.new 0) = .ok [] ∧
    (wC1.present).1 = .ok .nothing ∧
    wC1.render (RenderPass.new 0) ≠ .error .NotInitView ∧
    (wC1.present).1 ≠ .error .NotInitView := by
  refine ⟨rfl, rfl, rfl, ?_, ?_⟩
  · intro h
    have h2 : (Except.ok [] : Except CoreError (List Cmd)) =
        .error .NotInitView := h
    exact Except.noConfusion h2
  · intro h
    have h2 : (Except.ok PresentEffect.nothing :
        Except CoreError PresentEffect) = .error .NotInitView := h
    exact Except.noConfusion h2

/-- C1 amended: with no current View, `render` is a successful no-op that
submits nothing and `present` succeeds doing nothing (its `view.take()`
leaves the View empty); `NotInitView` is produced only by the private
`view()` accessor, which `render`/`present` never call. -/
theorem render_present_without_view_noop (w : Worker) (rp : RenderPass)
    (h : w.view = none) :
    w.render rp = .ok [] ∧
    w.present = (.ok .nothing, { w with view := none }) := by
  constructor
  · simp [Worker.render, h]
  · simp [Worker.present, h]

/-- Witness for `render_present_without_view_noop` on the concrete no-view
session. -/
theorem render_present_without_view_noop_witness :
    wC1.render (RenderPass.new 0) = .ok [] ∧
    wC1.present = (.ok .nothing, { wC1 with view := none }) :=
  render_present_without_view_noop wC1 (RenderPass.new 0) rfl

/-- C7 counterexample: with size (2, 2) and scale factor 1, a rescale by 1/4
yields width `(2 / 1) * (1 / 4) = 1/2`, truncated to 0 — yet the reported
size changes to (0, 0) instead of staying (2, 2), because `resize_by_scale`
assigns `self.size` before the zero-guard of `resize_by_size` runs. -/
theorem resize_by_scale_zero_changes_size_cex :
    f64ToU32 (((2 : ℚ) / 1) * (1 / 4)) = 0 ∧
    (wC7.resize_by_scale (1 / 4)).size = (0, 0) ∧
    wC7.size = (2, 2) := by
  have harg : ((2 : ℚ) / 1) * (1 / 4) = 1 / 2 := by norm_num
  have hfl : (⌊(1 / 2 : ℚ)⌋ : ℤ) = 0 := by
    rw [Int.floor_eq_zero_iff, Set.mem_Ico]
    constructor <;> norm_num
  have hf : f64ToU32 (((2 : ℚ) / 1) * (1 / 4)) = 0 := by
    rw [f64ToU32, harg, hfl]
    rfl
  refine ⟨hf, ?_, rfl⟩
  have hpos : (0 : ℚ) < wC7.scale_factor := by norm_num [wC7]
  rw [resize_by_scale_size wC7 (1 / 4) hpos]
  have e1 : ((wC7.size.1 : ℚ) / wC7.scale_factor) * (1 / 4) =
      ((2 : ℚ) / 1) * (1 / 4) := by
    norm_num [wC7]
  have e2 : ((wC7.size.2 : ℚ) / wC7.scale_factor) * (1 / 4) =
      ((2 : ℚ) / 1) * (1 / 4) := by
    norm_num [wC7]
  rw [e1, e2, hf]
  norm_num [wC7]

/-- C7 amended: `resize_by_size` with a zero dimension is a no-op, but
`resize_by_scale` with a positive current scale factor always overwrites the
reported size with the computed clamped dimensions — including when one of
them is zero (only the inner surface reconfiguration is skipped then); with
a non-positive scale factor it is a no-op. -/
theorem resize_zero_dimension_behavior (w : Worker) (new_size : Nat × Nat)
    (f : ℚ) :
    (new_size.1 = 0 ∨ new_size.2 = 0 → w.resize_by_size new_size = w) ∧
    (0 < w.scale_factor →
      (w.resize_by_scale f).size =
        (if w.limits.max_texture_dimension_2d <
            f64ToU32 (((w.size.1 : ℚ) / w.scale_factor) * f)
         then w.limits.max_texture_dimension_2d
         else f64ToU32 (((w.size.1 : ℚ) / w.scale_factor) * f),
         if w.limits.max_texture_dimension_2d <
            f64ToU32 (((w.size.2 : ℚ) / w.scale_factor) * f)
         then w.limits.max_texture_dimension_2d
         else f64ToU32 (((w.size.2 : ℚ) / w.scale_factor) * f))) ∧
    (¬ 0 < w.scale_factor → w.resize_by_scale f = w) := by
  refine ⟨?_, ?_, ?_⟩
  · intro hz
    have hng : ¬ (0 < new_size.1 ∧ 0 < new_size.2) := by omega
    simp [Worker.resize_by_size, hng]
  · intro hpos
    exact resize_by_scale_size w f hpos
  · intro hneg
    simp [Worker.resize_by_scale, hneg]

/-- Witness for `resize_zero_dimension_behavior`: `resize_by_size((0, 10))`
on the 2×2 session is a no-op, and the rescale by 1/4 lands on the clamped
computed size. -/
theorem resize_zero_dimension_behavior_witness :
    wC7.resize_by_size (0, 10) = wC7 ∧
    (wC7.resize_by_scale (1 / 4)).size =
      (if wC7.limits.max_texture_dimension_2d <
          f64ToU32 (((wC7.size.1 : ℚ) / wC7.scale_factor) * (1 / 4))
       then wC7.limits.max_texture_dimension_2d
       else f64ToU32 (((wC7.size.1 : ℚ) / wC7.scale_factor) * (1 / 4)),
       if wC7.limits.max_texture_dimension_2d <
          f64ToU32 (((wC7.size.2 : ℚ) / wC7.scale_factor) * (1 / 4))
       then wC7.limits.max_texture_dimension_2d
       else f64ToU32 (((wC7.size.2 : ℚ) / wC7.scale_factor) * (1 / 4))) := by
  have h := resize_zero_dimension_behavior wC7 (0, 10) (1 / 4)
  exact ⟨h.1 (Or.inl rfl), h.2.1 (by norm_num [wC7])⟩

/-- C8 counterexample: with a device limit of 4, `resize_by_size((5, 3))`
stores width 5 > 4 — `resize_by_size` performs no clamping at all. -/
theorem resize_by_size_no_clamp_cex :
    wC8.limits.max_texture_dimension_2d = 4 ∧
    (wC8.resize_by_size (5, 3)).size = (5, 3) ∧
    ¬ (5 : Nat) ≤ 4 := by
  refine ⟨rfl, by decide, by omega⟩

/-- C8 amended: only `resize_by_scale` clamps each dimension to the device's
maximum 2-D texture dimension (logging when it does); `resize_by_size`
applies the requested size unclamped whenever both dimensions are
positive. -/
theorem resize_clamp_behavior (w : Worker) (f : ℚ) (new_size : Nat × Nat) :
    (0 < w.scale_factor →
      (w.resize_by_scale f).size.1 ≤ w.limits.max_texture_dimension_2d ∧
      (w.resize_by_scale f).size.2 ≤ w.limits.max_texture_dimension_2d) ∧
    (0 < new_size.1 ∧ 0 < new_size.2 →
      (w.resize_by_size new_size).size = new_size) := by
  constructor
  · intro hpos
    rw [resize_by_scale_size w f hpos]
    constructor
    · dsimp only
      split <;> omega
    · dsimp only
      split <;> omega
  · intro hp
    simp [Worker.resize_by_size, hp]

/-- Witness for `resize_clamp_behavior`: rescaling the limit-4 session by 4
clamps both dimensions to at most 4, and `resize_by_size((3, 3))` stores
exactly (3, 3). -/
theorem resize_clamp_behavior_witness :
    ((wC8.resize_by_scale 4).size.1 ≤ wC8.limits.max_texture_dimension_2d ∧
     (wC8.resize_by_scale 4).size.2 ≤ wC8.limits.max_texture_dimension_2d) ∧
    (wC8.resize_by_size (3, 3)).size = (3, 3) := by
  have h := resize_clamp_behavior wC8 4 (3, 3)
  exact ⟨h.1 (by norm_num [wC8]), h.2 (by omega)⟩

/-- C5 counterexample: in a graph whose earlier-keyed stage fails first for a
different reason (missing entities), `render` fails with `EmptyEntities`,
not with the missing-color-attachment error, even though a later stage is
missing its color attachments (it still never submits). -/
theorem render_missing_colors_wrong_error_cex :
    stageNoColors.color_attachments = none ∧
    RenderPass.render rpC5 = .error (.EmptyEntities 0) ∧
    CoreError.EmptyEntities 0 ≠
      .EmptyRenderPassColorAttachemnts (rpLabel rpC5) :=
  ⟨rfl, rfl, fun h => nomatch h⟩

/-- C5 amended: whenever a Stage Graph contains a Render stage whose
color-attachment configuration is missing, `render` fails and the encoder
is never submitted, so no GPU commands are issued; the error is the distinct
missing-color-attachment error whenever every earlier-keyed stage processes
successfully — in particular whenever the offending stage comes first. -/
theorem render_missing_colors_fails (rp : RenderPass)
    (pre post : List (Nat × Stage)) (k : Nat) (r_s : RenderStage)
    (hsplit : rp.stages = pre ++ (k, Stage.Render r_s) :: post)
    (hc : r_s.color_attachments = none) :
    (∃ e, rp.render = .error e) ∧
    ((∀ p ∈ pre, ∃ cs, Stage.process p.2 p.1 (rpLabel rp) = .ok cs) →
      rp.render = .error (.EmptyRenderPassColorAttachemnts (rpLabel rp))) := by
  have h := processStages_missing_colors (rpLabel rp) k r_s hc pre post
  constructor
  · obtain ⟨e, he⟩ := h.1
    refine ⟨e, ?_⟩
    simp only [RenderPass.render, hsplit, he]
  · intro hpre
    have h2 := h.2 hpre
    simp only [RenderPass.render, hsplit, h2]

/-- Witness for `render_missing_colors_fails`: the one-stage graph whose only
stage is missing color attachments fails with the missing-color error. -/
theorem render_missing_colors_fails_witness :
    RenderPass.render rpC5w =
      .error (.EmptyRenderPassColorAttachemnts (rpLabel rpC5w)) := by
  have h := render_missing_colors_fails rpC5w [] [] 0 stageNoColors rfl rfl
  exact h.2 (by intro p hp; exact absurd hp (List.not_mem_nil p))

/-- C6: a Render stage with an attached Model and complete configuration
records the fixed setup followed by, for each of the N meshes in order, that
mesh's own vertex-buffer bind, its own index-buffer bind (Uint32), its
material's bind group bind, and one indexed draw of the mesh's element count
over the stage's configured instance range — so the draw commands of the
whole stage are exactly one indexed draw per mesh, in mesh order. -/
theorem render_stage_model_draws (r_s : RenderStage) (index : Nat)
    (label : String) (m : Model) (cab : ColorAttachmentBuilder)
    (ent inst : Nat × Nat) (hd : Nat)
    (hca : r_s.color_attachments = some cab)
    (hcv : cab.view.isSome)
    (hent : r_s.entities = some ent)
    (hinst : r_s.instances = some inst)
    (hp : r_s.pipeline.render = some hd)
    (hm : r_s.model = some m)
    (hbound : ∀ mesh ∈ m.meshes, mesh.material < m.materials.length) :
    Stage.process (.Render r_s) index label =
      .ok (renderStageSetup r_s hd ++
        ((m.meshes.map (meshBlock m.materials inst)).flatten)) ∧
    ((renderStageSetup r_s hd ++
        ((m.meshes.map (meshBlock m.materials inst)).flatten)).filter Cmd.isDraw =
      m.meshes.map (fun mesh => Cmd.drawIndexed (0, mesh.num_elements) 0 inst)) := by
  obtain ⟨v, hv⟩ := Option.isSome_iff_exists.mp hcv
  constructor
  · simp [Stage.process, hca, ColorAttachmentBuilder.build, hv, hent, hinst,
      hp, hm, processMeshes_ok m.materials inst m.meshes hbound]
  · rw [List.filter_append, renderStageSetup_no_draw,
      join_meshBlocks_filter m.materials inst m.meshes hbound,
      List.nil_append]

/-- Witness for `render_stage_model_draws`: the two-mesh model stage records
exactly two indexed draws, one per mesh, each preceded by its own mesh's
buffers and material bind group. -/
theorem render_stage_model_draws_witness :
    Stage.process (.Render stageC6) 0 "L" =
      .ok (renderStageSetup stageC6 7 ++
        ((modelC6.meshes.map (meshBlock modelC6.materials (0, 2))).flatten)) ∧
    ((renderStageSetup stageC6 7 ++
        ((modelC6.meshes.map (meshBlock modelC6.materials (0, 2))).flatten)).filter
        Cmd.isDraw =
      modelC6.meshes.map
        (fun mesh => Cmd.drawIndexed (0, mesh.num_elements) 0 (0, 2))) :=
  render_stage_model_draws stageC6 0 "L" modelC6 ⟨none, none, some 0, none⟩
    (0, 6) (0, 2) 7 rfl rfl rfl rfl rfl rfl (by decide)

end CustomEngine
